import Mathlib

/-!
Verification development for the Cart_Recovery_AI e-commerce repository.

The development embeds, as executable Lean definitions:
  * the frontend cart operations of `CartContext` (src/unnamed/part_001) and
    `CartPage.handleQuantityChange` (frontend/src/components/CartPage.tsx);
  * the exit-intent tracker of `behaviorTracker.setupExitIntentTracking`
    (src/unnamed/part_000);
  * the abandonment-popup scheduling guard of `AbandonmentPopup`
    (src/unnamed/part_006);
  * the data model of database_schema.sql (`shopping_carts`, `cart_items`,
    `recovery_attempts`);
and, because the backend Python sources (`main.py`, `database.py`,
`ai_agent.py`, `monitoring.py`) are not part of the available sources,
models the Cart State Store's server-side update, the Abandonment Detector
and the Offer Selector from the specification text (marked below).

Monetary values are in integer cents (the schema stores DECIMAL(10,2));
quantities are integers, matching the TypeScript `number` fields on the
request path where non-positive values can occur.
-/

/-- Cart status, from the `shopping_carts.status` ENUM in
database_schema.sql. -/
inductive CartStatus
  | active
  | abandoned
  | recovered
  | completed
  deriving DecidableEq, Repr

/-- A catalog product: identifier and unit price in cents, from the
`products` table of database_schema.sql (only the fields the cart logic
reads). -/
structure Product where
  id : Nat
  price : Nat
  deriving DecidableEq, Repr

/-- The product catalog, as the list of rows of the `products` table. -/
abbrev Catalog := List Product

/-- Catalog lookup by product id (the `getProduct` boundary collaborator). -/
def findProduct (cat : Catalog) (pid : Nat) : Option Product :=
  cat.find? (fun p => p.id == pid)

/-- A cart line item, from the `CartItem` interface of CartContext
(src/unnamed/part_001) and the `cart_items` table: product reference,
quantity, and price snapshot in cents. -/
structure CartItem where
  product_id : Nat
  quantity : Int
  price : Nat
  deriving DecidableEq, Repr

/-- Sum of quantity × price over a list of line items, in cents. -/
def cartItemsTotal (items : List CartItem) : Int :=
  items.foldl (fun acc it => acc + it.quantity * (it.price : Int)) 0

/-- Per-session cart state, from the `shopping_carts` row plus its
`cart_items` rows: current items, stored derived total, status, and the
last-update / abandonment timestamps (in abstract time units). -/
structure CartState where
  items : List CartItem
  total_value : Int
  status : CartStatus
  updated_at : Nat
  abandoned_at : Option Nat
  deriving DecidableEq, Repr

/-! ## Frontend cart operations (from src/unnamed/part_001) -/

/-- From `CartContext.addToCart`: if an item for the product already exists,
its quantity is incremented, otherwise a new line item is pushed with the
product's price. -/
def addToCart (items : List CartItem) (pid : Nat) (price : Nat)
    (qty : Int) : List CartItem :=
  if items.any (fun it => it.product_id == pid) then
    items.map (fun it =>
      if it.product_id == pid then { it with quantity := it.quantity + qty }
      else it)
  else
    items ++ [{ product_id := pid, quantity := qty, price := price }]

/-- From `CartContext.removeFromCart`: filters out the line item for the
given product id. -/
def removeFromCart (items : List CartItem) (pid : Nat) : List CartItem :=
  items.filter (fun it => it.product_id ≠ pid)

/-- From `CartContext.updateQuantity`: a non-positive quantity removes the
item; otherwise the line item's quantity is overwritten. -/
def updateQuantity (items : List CartItem) (pid : Nat) (qty : Int) :
    List CartItem :=
  if qty ≤ 0 then removeFromCart items pid
  else
    items.map (fun it =>
      if it.product_id == pid then { it with quantity := qty } else it)

/-- From `CartPage.handleQuantityChange`
(frontend/src/components/CartPage.tsx): a requested quantity below 1
removes the item, otherwise delegates to `updateQuantity`. -/
def handleQuantityChange (items : List CartItem) (pid : Nat) (qty : Int) :
    List CartItem :=
  if qty < 1 then removeFromCart items pid
  else updateQuantity items pid qty

/-- From `CartContext.clearCart`: the request submitted to the server
update endpoint is the empty item list. -/
def clearCartRequest : List CartItem := []

/-! ## Cart State Store: server-side update (modelled from the spec) -/

/-- `ValidationError`, the synchronous rejection for referentially invalid
input (spec §7): here, an unknown product id in a submitted item. -/
inductive ValidationError
  | unknownProduct (pid : Nat)
  deriving DecidableEq, Repr

/-- Modelled from the spec: the validation and repricing step of
`replaceItems` (§4.1, implemented by the missing backend `main.py` /
`database.py`): every submitted item's product must exist in the catalog
(otherwise the whole update is rejected with a `ValidationError`), and each
accepted item is priced at the current catalog price. -/
def priceItems (cat : Catalog) : List CartItem →
    Except ValidationError (List CartItem)
  | [] => .ok []
  | it :: rest =>
    match findProduct cat it.product_id with
    | none => .error (.unknownProduct it.product_id)
    | some p =>
      match priceItems cat rest with
      | .error e => .error e
      | .ok tail => .ok ({ it with price := p.price } :: tail)

/-- Modelled from the spec: `replaceItems(sessionId, items[])` of the Cart
State Store (§4.1, implemented by the missing backend): validates and
reprices all items atomically, drops entries with quantity ≤ 0, recomputes
the stored total as Σ(quantity × price), sets `updated_at = now`, and
resets an `abandoned` or `recovered` status to `active`. -/
def replaceItems (cat : Catalog) (st : CartState) (req : List CartItem)
    (now : Nat) : Except ValidationError CartState :=
  match priceItems cat req with
  | .error e => .error e
  | .ok priced =>
    let kept := priced.filter (fun it => 0 < it.quantity)
    .ok { st with
      items := kept
      total_value := cartItemsTotal kept
      status :=
        if st.status = .abandoned ∨ st.status = .recovered then .active
        else st.status
      updated_at := now }

/-- The state actually held after a `replaceItems` call: on a
`ValidationError` the update is rejected and the previous state is kept
unchanged (spec §4.1: atomic, no side effect on rejection). -/
def applyReplaceItems (cat : Catalog) (st : CartState) (req : List CartItem)
    (now : Nat) : CartState :=
  match replaceItems cat st req now with
  | .error _ => st
  | .ok st2 => st2

/-- From `CartContext.clearCart` (src/unnamed/part_001): clearing the cart
submits the empty item list to the server update endpoint. -/
def clearCart (cat : Catalog) (st : CartState) (now : Nat) :
    Except ValidationError CartState :=
  replaceItems cat st clearCartRequest now

/-! ## Cart mutation sequences (frontend operation → server update) -/

/-- One frontend cart mutation, as exposed by `CartContext`. -/
inductive CartOp
  | add (pid : Nat) (qty : Int)
  | remove (pid : Nat)
  | update (pid : Nat) (qty : Int)
  deriving DecidableEq, Repr

/-- The price the frontend shows for a product (its catalog price; the
server reprices items anyway, so this value is display-only). -/
def frontendPrice (cat : Catalog) (pid : Nat) : Nat :=
  ((findProduct cat pid).map Product.price).getD 0

/-- The item list a frontend mutation submits to the server, computed by
the `CartContext` operations from the current items. -/
def requestOf (cat : Catalog) (items : List CartItem) : CartOp →
    List CartItem
  | .add pid qty => addToCart items pid (frontendPrice cat pid) qty
  | .remove pid => removeFromCart items pid
  | .update pid qty => updateQuantity items pid qty

/-- One full mutation round trip: frontend computes the new item list, the
server runs `replaceItems`; a rejected update leaves the state unchanged. -/
def applyOp (cat : Catalog) (st : CartState) (op : CartOp) (now : Nat) :
    CartState :=
  applyReplaceItems cat st (requestOf cat st.items op) now

/-- Runs a sequence of timestamped cart mutations. -/
def runOps (cat : Catalog) (st : CartState) :
    List (CartOp × Nat) → CartState
  | [] => st
  | (op, t) :: rest => runOps cat (applyOp cat st op t) rest

/-- The stored-total invariant: the cart's stored `total_value` equals the
sum of quantity × price over its current items. -/
def totalInvariant (st : CartState) : Prop :=
  st.total_value = cartItemsTotal st.items

/-! ## Offer Selector (modelled from the spec) -/

/-- The shape of incentive an offer grants (the `offer_type` column of
`recovery_attempts`). -/
inductive OfferType
  | percentage
  | freeShipping
  deriving DecidableEq, Repr

/-- An incentive recommendation: its type, its discount value (percent, 0
for a shipping-only offer), and whether shipping is free. -/
structure Offer where
  offerType : OfferType
  offerValue : Nat
  freeShipping : Bool
  deriving DecidableEq, Repr

/-- High-value tier lower bound, $200.00 in cents (default tiering table of
the Offer Suggestor, src/PROJECT_COMPLETE.md). -/
def highValueThreshold : Int := 20000

/-- Mid-value tier lower bound, $100.00 in cents (default tiering table of
the Offer Suggestor, src/PROJECT_COMPLETE.md). -/
def midValueThreshold : Int := 10000

/-- The high-value tier offer: 15% percentage discount. -/
def highTierOffer : Offer :=
  { offerType := .percentage, offerValue := 15, freeShipping := false }

/-- The mid-value tier offer: 10% percentage discount plus free shipping. -/
def midTierOffer : Offer :=
  { offerType := .percentage, offerValue := 10, freeShipping := true }

/-- The low-value tier offer: free shipping only. -/
def lowTierOffer : Offer :=
  { offerType := .freeShipping, offerValue := 0, freeShipping := true }

/-- Modelled from the spec: the Offer Selector's default tiering table
(§4.3 and the Offer Suggestor description in src/PROJECT_COMPLETE.md,
implemented by the missing backend `ai_agent.py`): ≥ $200 → 15% discount;
$100–$200 → 10% discount + free shipping; < $100 → free shipping only;
each tier's lower bound is inclusive. -/
def selectOffer (cartTotal : Int) : Offer :=
  if highValueThreshold ≤ cartTotal then highTierOffer
  else if midValueThreshold ≤ cartTotal then midTierOffer
  else lowTierOffer

/-- The discount value an offer grants (its percentage value; a
shipping-only offer discounts nothing). -/
def discountValue (o : Offer) : Nat := o.offerValue

/-! ## Abandonment Detector (modelled from the spec) -/

/-- One row of the `recovery_attempts` table of database_schema.sql (the
fields the detector writes: cart reference and the computed offer). -/
structure RecoveryAttempt where
  cart_id : Nat
  offer_type : OfferType
  offer_value : Nat
  deriving DecidableEq, Repr

/-- Eligibility of a cart for the abandonment transition (spec §4.2):
status `active`, at least one item, and idle at least the threshold. -/
abbrev detectorEligible (threshold now : Nat) (st : CartState) : Prop :=
  st.status = .active ∧ st.items ≠ [] ∧ threshold ≤ now - st.updated_at

/-- The Recovery Attempt the detector records for a cart it abandons,
carrying the offer computed by `selectOffer` on the cart total. -/
def mkRecoveryAttempt (cartId : Nat) (st : CartState) : RecoveryAttempt :=
  { cart_id := cartId
    offer_type := (selectOffer st.total_value).offerType
    offer_value := (selectOffer st.total_value).offerValue }

/-- Modelled from the spec: one detector pass over a single cart (§4.2,
implemented by the missing backend `monitoring.py`): a cart in status
`active` with at least one item and idle for at least the threshold is
atomically transitioned to `abandoned`, stamped `abandoned_at = now`, and
exactly one Recovery Attempt is appended; every other cart (in particular
one already `abandoned`) is skipped unchanged. -/
def detectorStep (threshold now : Nat) (cartId : Nat) (st : CartState)
    (attempts : List RecoveryAttempt) : CartState × List RecoveryAttempt :=
  if detectorEligible threshold now st then
    ({ st with status := .abandoned, abandoned_at := some now },
      attempts ++ [mkRecoveryAttempt cartId st])
  else (st, attempts)

/-! ## Abandonment popup scheduling guard (from src/unnamed/part_006) -/

/-- From `AbandonmentPopup`: the 60-second timer that triggers offer
generation is scheduled only when the cart contains at least one item. -/
def popupTimerScheduled (items : List CartItem) : Bool :=
  0 < items.length

/-! ## Exit-intent tracker (from src/unnamed/part_000) -/

/-- State of `setupExitIntentTracking`: whether an exit-intent event has
been tracked, and the time at which the pending 30-second timeout resets
the flag (meaningful only while `tracked` is set). -/
structure TrackerState where
  tracked : Bool
  resetAt : Nat
  deriving DecidableEq, Repr

/-- The tracker's initial state: `exitIntentTracked = false`. -/
def initTracker : TrackerState := { tracked := false, resetAt := 0 }

/-- A mouse-leave event: the pointer's `clientY` and the time at which the
handler runs. -/
structure MouseLeave where
  clientY : Int
  time : Nat
  deriving DecidableEq, Repr

/-- The reset scheduled by `setTimeout(..., 30000)`: once 30000 ms have
elapsed since the flag was set, the flag is cleared; applied lazily when
the next event is handled. -/
def tickReset (s : TrackerState) (t : Nat) : TrackerState :=
  if s.tracked = true ∧ s.resetAt ≤ t then { s with tracked := false }
  else s

/-- From `handleMouseLeave` in `setupExitIntentTracking`: if the pointer
left through the top (`clientY ≤ 0`) and no exit intent is currently
tracked, the flag is set, an `exit_intent` event is emitted (returned
Boolean), and the reset is scheduled 30000 ms later. -/
def handleMouseLeave (s : TrackerState) (e : MouseLeave) :
    TrackerState × Bool :=
  let s2 := tickReset s e.time
  if e.clientY ≤ 0 ∧ s2.tracked = false then
    ({ tracked := true, resetAt := e.time + 30000 }, true)
  else (s2, false)

/-- Runs the tracker over a sequence of mouse-leave events, collecting the
times at which `exit_intent` events are emitted. -/
def runTracker (s : TrackerState) : List MouseLeave →
    TrackerState × List Nat
  | [] => (s, [])
  | e :: rest =>
    let step := handleMouseLeave s e
    let later := runTracker step.1 rest
    (later.1, (if step.2 then [e.time] else []) ++ later.2)

/-- Events arrive in nondecreasing time order (the DOM dispatches handler
invocations sequentially along real time). -/
abbrev timeOrdered (evs : List MouseLeave) : Prop :=
  evs.Pairwise (fun a b => a.time ≤ b.time)

/-! ## Helper lemmas -/

/-- A successful `replaceItems` stores a total equal to the item sum. -/
theorem replaceItems_ok_totalInvariant (cat : Catalog) (st : CartState)
    (req : List CartItem) (now : Nat) (st2 : CartState)
    (hok : replaceItems cat st req now = .ok st2) : totalInvariant st2 := by
  unfold replaceItems at hok
  cases hp : priceItems cat req with
  | error e => rw [hp] at hok; cases hok
  | ok priced =>
    rw [hp] at hok
    simp only [Except.ok.injEq] at hok
    subst hok
    rfl

/-- A successful `replaceItems` stores only items of positive quantity. -/
theorem replaceItems_ok_positive (cat : Catalog) (st : CartState)
    (req : List CartItem) (now : Nat) (st2 : CartState)
    (hok : replaceItems cat st req now = .ok st2) :
    ∀ it ∈ st2.items, 0 < it.quantity := by
  unfold replaceItems at hok
  cases hp : priceItems cat req with
  | error e => rw [hp] at hok; cases hok
  | ok priced =>
    rw [hp] at hok
    simp only [Except.ok.injEq] at hok
    subst hok
    intro it hit
    simp only [List.mem_filter, decide_eq_true_eq] at hit
    exact hit.2

/-- A request containing an unknown product id makes pricing fail. -/
theorem priceItems_error_of_unknown (cat : Catalog) (req : List CartItem)
    (h : ∃ it ∈ req, findProduct cat it.product_id = none) :
    ∃ e, priceItems cat req = .error e := by
  induction req with
  | nil => simp at h
  | cons a tl ih =>
    obtain ⟨it, hmem, hnone⟩ := h
    rcases List.mem_cons.mp hmem with heq | htl
    · subst heq
      exact ⟨.unknownProduct it.product_id, by simp [priceItems, hnone]⟩
    · cases hfa : findProduct cat a.product_id with
      | none => exact ⟨.unknownProduct a.product_id, by simp [priceItems, hfa]⟩
      | some p =>
        obtain ⟨e, he⟩ := ih ⟨it, htl, hnone⟩
        exact ⟨e, by simp [priceItems, hfa, he]⟩

/-! ## Claim theorems -/

/-- C1: a cart whose total is exactly the high-value threshold ($200.00 =
20000 cents) receives the high-value tier offer (15% percentage discount),
not the mid-value tier: each tier's lower bound is inclusive, as witnessed
at the $100.00 boundary as well. -/
theorem c1_boundary_resolves_to_higher_tier :
    selectOffer 20000 = highTierOffer ∧
    selectOffer 20000 ≠ midTierOffer ∧
    selectOffer 10000 = midTierOffer := by
  decide

/-- C7: the discount value of the selected tier is monotonically
non-decreasing in the cart total: for totals t1 < t2, `selectOffer t1`
never yields a strictly higher-value discount than `selectOffer t2`. -/
theorem c7_selectOffer_monotone (t1 t2 : Int) (h : t1 < t2) :
    discountValue (selectOffer t1) ≤ discountValue (selectOffer t2) := by
  unfold selectOffer discountValue highValueThreshold midValueThreshold
  split_ifs with h1 h2 h3 h4 <;>
    simp_all [highTierOffer, midTierOffer, lowTierOffer] <;> omega

/-- Witness for C7 at the concrete totals $50.00 < $250.00. -/
theorem c7_selectOffer_monotone_witness :
    (5000 : Int) < 25000 ∧
    discountValue (selectOffer 5000) ≤ discountValue (selectOffer 25000) :=
  ⟨by decide, c7_selectOffer_monotone 5000 25000 (by decide)⟩

/-- C4: an update request with quantity ≤ 0 is interpreted as removal —
after `updateQuantity` the item list contains no entry for that product —
and a successful server-side `replaceItems` never stores a line item with
quantity zero or below. -/
theorem c4_nonpositive_quantity_removes (items : List CartItem)
    (pid : Nat) (q : Int) (cat : Catalog) (st st2 : CartState)
    (req : List CartItem) (now : Nat) (hq : q ≤ 0)
    (hok : replaceItems cat st req now = .ok st2) :
    (∀ it ∈ updateQuantity items pid q, it.product_id ≠ pid) ∧
    (∀ it ∈ st2.items, 0 < it.quantity) := by
  refine ⟨?_, replaceItems_ok_positive cat st req now st2 hok⟩
  intro it hit
  unfold updateQuantity at hit
  rw [if_pos hq] at hit
  unfold removeFromCart at hit
  simp only [List.mem_filter, decide_eq_true_eq] at hit
  exact hit.2

/-- Witness for C4: a quantity-0 update for product 1 on a two-item list,
and a concrete successful `replaceItems`. -/
theorem c4_nonpositive_quantity_removes_witness :
    (0 : Int) ≤ 0 ∧
    replaceItems [⟨1, 5000⟩]
        ⟨[], 0, .active, 0, none⟩ [⟨1, 2, 0⟩] 50 =
      .ok ⟨[⟨1, 2, 5000⟩], 10000, .active, 50, none⟩ ∧
    ((∀ it ∈ updateQuantity [⟨1, 3, 5000⟩, ⟨2, 1, 100⟩] 1 0,
        it.product_id ≠ 1) ∧
     (∀ it ∈ (⟨[⟨1, 2, 5000⟩], 10000, .active, 50, none⟩ : CartState).items,
        0 < it.quantity)) :=
  ⟨by decide, by rfl,
    c4_nonpositive_quantity_removes [⟨1, 3, 5000⟩, ⟨2, 1, 100⟩] 1 0
      [⟨1, 5000⟩] ⟨[], 0, .active, 0, none⟩
      ⟨[⟨1, 2, 5000⟩], 10000, .active, 50, none⟩ [⟨1, 2, 0⟩] 50
      (by decide) (by rfl)⟩

/-- C6: a `replaceItems` call containing an item whose product id is not in
the catalog is rejected with a `ValidationError`, and the cart state held
after the call is unchanged from before it (the update is atomic). -/
theorem c6_unknown_product_rejected_atomically (cat : Catalog)
    (st : CartState) (req : List CartItem) (now : Nat)
    (h : ∃ it ∈ req, findProduct cat it.product_id = none) :
    (∃ e, replaceItems cat st req now = .error e) ∧
    applyReplaceItems cat st req now = st := by
  obtain ⟨e, he⟩ := priceItems_error_of_unknown cat req h
  exact ⟨⟨e, by simp [replaceItems, he]⟩,
    by simp [applyReplaceItems, replaceItems, he]⟩

/-- Witness for C6: product id 9999 does not exist in a one-product
catalog; the update is rejected and the cart is unchanged. -/
theorem c6_unknown_product_rejected_atomically_witness :
    (∃ it ∈ [(⟨9999, 1, 0⟩ : CartItem)],
      findProduct [⟨1, 5000⟩] it.product_id = none) ∧
    ((∃ e, replaceItems [⟨1, 5000⟩]
        ⟨[⟨1, 1, 5000⟩], 5000, .active, 0, none⟩ [⟨9999, 1, 0⟩] 100 =
          .error e) ∧
      applyReplaceItems [⟨1, 5000⟩]
        ⟨[⟨1, 1, 5000⟩], 5000, .active, 0, none⟩ [⟨9999, 1, 0⟩] 100 =
        ⟨[⟨1, 1, 5000⟩], 5000, .active, 0, none⟩) :=
  ⟨⟨⟨9999, 1, 0⟩, by simp [findProduct]⟩,
    c6_unknown_product_rejected_atomically [⟨1, 5000⟩]
      ⟨[⟨1, 1, 5000⟩], 5000, .active, 0, none⟩ [⟨9999, 1, 0⟩] 100
      ⟨⟨9999, 1, 0⟩, by simp [findProduct]⟩⟩

/-- C2: running the Abandonment Detector twice in succession with no
intervening cart mutation creates at most one Recovery Attempt, and
exactly one when the cart was eligible at the first pass: the cart is then
`abandoned` and the second pass skips it. -/
theorem c2_detector_idempotent (threshold n1 n2 cid : Nat)
    (st : CartState) (attempts : List RecoveryAttempt) :
    ((detectorStep threshold n2 cid
        (detectorStep threshold n1 cid st attempts).1
        (detectorStep threshold n1 cid st attempts).2).2.length
      ≤ attempts.length + 1) ∧
    (detectorEligible threshold n1 st →
      (detectorStep threshold n2 cid
          (detectorStep threshold n1 cid st attempts).1
          (detectorStep threshold n1 cid st attempts).2).2.length
        = attempts.length + 1) := by
  by_cases h1 : detectorEligible threshold n1 st
  · have habd : ¬ detectorEligible threshold n2
        ({ st with status := .abandoned, abandoned_at := some n1 }) := by
      rintro ⟨ha, -, -⟩
      simp at ha
    simp [detectorStep, if_pos h1, if_neg habd]
  · by_cases h2 : detectorEligible threshold n2 st
    · simp [detectorStep, if_neg h1, if_pos h2, h1]
    · simp [detectorStep, if_neg h1, if_neg h2, h1]

/-- Witness for C2: an eligible cart (active, one item, idle beyond the
threshold) scanned twice produces exactly one Recovery Attempt. -/
theorem c2_detector_idempotent_witness :
    (((detectorStep 1800 2000 7
        (detectorStep 1800 2000 7
          ⟨[⟨1, 1, 25000⟩], 25000, .active, 0, none⟩ []).1
        (detectorStep 1800 2000 7
          ⟨[⟨1, 1, 25000⟩], 25000, .active, 0, none⟩ []).2).2.length
      ≤ 0 + 1) ∧
    (detectorEligible 1800 2000
        (⟨[⟨1, 1, 25000⟩], 25000, .active, 0, none⟩ : CartState) →
      (detectorStep 1800 2000 7
          (detectorStep 1800 2000 7
            ⟨[⟨1, 1, 25000⟩], 25000, .active, 0, none⟩ []).1
          (detectorStep 1800 2000 7
            ⟨[⟨1, 1, 25000⟩], 25000, .active, 0, none⟩ []).2).2.length
        = 0 + 1)) ∧
    detectorEligible 1800 2000
      (⟨[⟨1, 1, 25000⟩], 25000, .active, 0, none⟩ : CartState) :=
  ⟨c2_detector_idempotent 1800 2000 2000 7
      ⟨[⟨1, 1, 25000⟩], 25000, .active, 0, none⟩ [],
    by decide⟩

/-- C5: a `replaceItems` call on an `abandoned` (or `recovered`) cart
resets its status to `active`, and the cart is not eligible for a repeat
abandonment scan before the idle threshold is exceeded again from the new
`updated_at`. -/
theorem c5_replaceItems_reactivates (cat : Catalog) (st st2 : CartState)
    (req : List CartItem) (now threshold now2 cid : Nat)
    (attempts : List RecoveryAttempt)
    (hst : st.status = .abandoned ∨ st.status = .recovered)
    (hok : replaceItems cat st req now = .ok st2)
    (hidle : now2 - now < threshold) :
    st2.status = .active ∧
    detectorStep threshold now2 cid st2 attempts = (st2, attempts) := by
  unfold replaceItems at hok
  cases hp : priceItems cat req with
  | error e => rw [hp] at hok; cases hok
  | ok priced =>
    rw [hp] at hok
    simp only [Except.ok.injEq] at hok
    subst hok
    refine ⟨by simp [hst], ?_⟩
    unfold detectorStep
    rw [if_neg]
    rintro ⟨-, -, h3⟩
    simp at h3
    omega

/-- Witness for C5: an abandoned cart updated at time 100 is `active`
again and a scan at time 150 with threshold 1800 does not transition it. -/
theorem c5_replaceItems_reactivates_witness :
    ((⟨[], 0, .abandoned, 0, some 5⟩ : CartState).status = .abandoned ∨
      (⟨[], 0, .abandoned, 0, some 5⟩ : CartState).status = .recovered) ∧
    replaceItems [⟨1, 5000⟩] ⟨[], 0, .abandoned, 0, some 5⟩
        [⟨1, 2, 0⟩] 100 =
      .ok ⟨[⟨1, 2, 5000⟩], 10000, .active, 100, some 5⟩ ∧
    (150 - 100 < 1800) ∧
    ((⟨[⟨1, 2, 5000⟩], 10000, .active, 100, some 5⟩ : CartState).status
        = .active ∧
      detectorStep 1800 150 7
          ⟨[⟨1, 2, 5000⟩], 10000, .active, 100, some 5⟩ [] =
        (⟨[⟨1, 2, 5000⟩], 10000, .active, 100, some 5⟩, [])) :=
  ⟨Or.inl rfl, by rfl, by decide,
    c5_replaceItems_reactivates [⟨1, 5000⟩]
      ⟨[], 0, .abandoned, 0, some 5⟩
      ⟨[⟨1, 2, 5000⟩], 10000, .active, 100, some 5⟩
      [⟨1, 2, 0⟩] 100 1800 150 7 []
      (Or.inl rfl) (by rfl) (by decide)⟩

/-- C8: `clearCart` is observably the same call as `replaceItems` with the
empty item list, and the resulting cart has no line items, total zero, the
same status effect (an abandoned or recovered cart is reactivated) and the
same timestamp effect (`updated_at = now`). -/
theorem c8_clearCart_equiv_replaceItems_empty (cat : Catalog)
    (st : CartState) (now : Nat) :
    clearCart cat st now = replaceItems cat st [] now ∧
    clearCart cat st now =
      .ok { st with
        items := []
        total_value := 0
        status :=
          if st.status = .abandoned ∨ st.status = .recovered then .active
          else st.status
        updated_at := now } :=
  ⟨rfl, rfl⟩

/-- C9: the Abandonment Detector never transitions a cart with zero items
and never records a Recovery Attempt for it, and the frontend abandonment
popup never even schedules its offer timer for an empty cart. -/
theorem c9_no_offer_for_empty_cart (threshold now cid : Nat)
    (st : CartState) (attempts : List RecoveryAttempt)
    (h : st.items = []) :
    detectorStep threshold now cid st attempts = (st, attempts) ∧
    popupTimerScheduled st.items = false := by
  have hne : ¬ detectorEligible threshold now st := by
    rintro ⟨-, h2, -⟩
    exact h2 h
  constructor
  · unfold detectorStep
    rw [if_neg hne]
  · simp [popupTimerScheduled, h]

/-- Witness for C9: an idle active cart with no items is skipped. -/
theorem c9_no_offer_for_empty_cart_witness :
    ((⟨[], 0, .active, 0, none⟩ : CartState).items = []) ∧
    (detectorStep 1800 99999 7 ⟨[], 0, .active, 0, none⟩ [] =
        (⟨[], 0, .active, 0, none⟩, []) ∧
      popupTimerScheduled
        (⟨[], 0, .active, 0, none⟩ : CartState).items = false) :=
  ⟨rfl, c9_no_offer_for_empty_cart 1800 99999 7
    ⟨[], 0, .active, 0, none⟩ [] rfl⟩

/-- One mutation round trip preserves the stored-total invariant. -/
theorem applyOp_preserves_totalInvariant (cat : Catalog) (st : CartState)
    (op : CartOp) (now : Nat) (h : totalInvariant st) :
    totalInvariant (applyOp cat st op now) := by
  unfold applyOp applyReplaceItems
  split
  · exact h
  · next st2 heq =>
    exact replaceItems_ok_totalInvariant cat st _ now st2 heq

/-- C3: after every mutation of any sequence of add/remove/update
operations, the cart's stored `total_value` equals the sum over its
current line items of quantity × price. -/
theorem c3_runOps_totalInvariant (cat : Catalog) (st : CartState)
    (ops : List (CartOp × Nat)) (h : totalInvariant st) :
    totalInvariant (runOps cat st ops) := by
  induction ops generalizing st with
  | nil => exact h
  | cons p rest ih =>
    obtain ⟨op, t⟩ := p
    exact ih _ (applyOp_preserves_totalInvariant cat st op t h)

/-- Witness for C3: a concrete add / update / remove sequence from the
empty cart keeps the stored total equal to the item sum. -/
theorem c3_runOps_totalInvariant_witness :
    totalInvariant (⟨[], 0, .active, 0, none⟩ : CartState) ∧
    totalInvariant (runOps [⟨1, 5000⟩, ⟨2, 12500⟩]
      ⟨[], 0, .active, 0, none⟩
      [(.add 1 2, 10), (.add 2 1, 20), (.update 1 5, 30),
        (.update 2 0, 40), (.remove 1, 50)]) :=
  ⟨by rfl,
    c3_runOps_totalInvariant [⟨1, 5000⟩, ⟨2, 12500⟩]
      ⟨[], 0, .active, 0, none⟩
      [(.add 1 2, 10), (.add 2 1, 20), (.update 1 5, 30),
        (.update 2 0, 40), (.remove 1, 50)]
      (by rfl)⟩

/-- Emission times are bounded below by any lower bound on event times. -/
theorem runTracker_emission_lb (s : TrackerState) (evs : List MouseLeave)
    (lb : Nat) (hlb : ∀ e ∈ evs, lb ≤ e.time) :
    ∀ t ∈ (runTracker s evs).2, lb ≤ t := by
  induction evs generalizing s with
  | nil => simp [runTracker]
  | cons e rest ih =>
    intro t ht
    simp only [runTracker, List.mem_append] at ht
    rcases ht with h | h
    · by_cases hb : (handleMouseLeave s e).2 = true
      · rw [if_pos hb] at h
        simp only [List.mem_singleton] at h
        subst h
        exact hlb e (List.mem_cons_self e rest)
      · rw [if_neg hb] at h
        simp at h
    · exact ih (handleMouseLeave s e).1
        (fun x hx => hlb x (List.mem_cons_of_mem e hx)) t h

/-- While an exit intent is tracked, no emission happens before the
scheduled reset time. -/
theorem runTracker_tracked_lb (s : TrackerState) (evs : List MouseLeave)
    (hord : timeOrdered evs) (htr : s.tracked = true) :
    ∀ t ∈ (runTracker s evs).2, s.resetAt ≤ t := by
  induction evs generalizing s with
  | nil => simp [runTracker]
  | cons e rest ih =>
    rw [timeOrdered, List.pairwise_cons] at hord
    obtain ⟨hhd, hrest⟩ := hord
    intro t ht
    simp only [runTracker, List.mem_append] at ht
    by_cases hrt : s.resetAt ≤ e.time
    · by_cases hy : e.clientY ≤ 0
      · have hml : handleMouseLeave s e =
            ({ tracked := true, resetAt := e.time + 30000 }, true) := by
          simp [handleMouseLeave, tickReset, htr, hrt, hy]
        rw [hml] at ht
        rcases ht with h | h
        · have h2 : t ∈ [e.time] := h
          simp only [List.mem_singleton] at h2
          omega
        · have h2 : e.time + 30000 ≤ t :=
            ih { tracked := true, resetAt := e.time + 30000 } hrest rfl t h
          omega
      · have hml : handleMouseLeave s e =
            ({ s with tracked := false }, false) := by
          simp [handleMouseLeave, tickReset, htr, hrt, hy]
        rw [hml] at ht
        rcases ht with h | h
        · exact absurd (h : t ∈ ([] : List Nat)) (List.not_mem_nil t)
        · have h2 : e.time ≤ t := runTracker_emission_lb
            { s with tracked := false } rest e.time hhd t h
          omega
    · have hml : handleMouseLeave s e = (s, false) := by
        simp [handleMouseLeave, tickReset, htr, hrt]
      rw [hml] at ht
      rcases ht with h | h
      · exact absurd (h : t ∈ ([] : List Nat)) (List.not_mem_nil t)
      · exact ih s hrest htr t h

/-- Always at least 30000 ms pass between two emitted exit-intent events,
from any starting state, given time-ordered events. -/
theorem runTracker_separated (s : TrackerState) (evs : List MouseLeave)
    (hord : timeOrdered evs) :
    (runTracker s evs).2.Pairwise (fun a b => a + 30000 ≤ b) := by
  induction evs generalizing s with
  | nil => simp [runTracker]
  | cons e rest ih =>
    rw [timeOrdered, List.pairwise_cons] at hord
    obtain ⟨hhd, hrest⟩ := hord
    simp only [runTracker]
    by_cases hc : e.clientY ≤ 0 ∧ (tickReset s e.time).tracked = false
    · have hml : handleMouseLeave s e =
          ({ tracked := true, resetAt := e.time + 30000 }, true) := by
        simp only [handleMouseLeave]
        rw [if_pos hc]
      rw [hml]
      show (e.time :: (runTracker
          { tracked := true, resetAt := e.time + 30000 } rest).2).Pairwise _
      rw [List.pairwise_cons]
      constructor
      · intro t ht
        have h2 : e.time + 30000 ≤ t := runTracker_tracked_lb
          { tracked := true, resetAt := e.time + 30000 } rest hrest rfl t ht
        exact h2
      · exact ih _ hrest
    · have hml : handleMouseLeave s e = (tickReset s e.time, false) := by
        simp only [handleMouseLeave]
        rw [if_neg hc]
      rw [hml]
      exact ih (tickReset s e.time) hrest

/-- C10: over any time-ordered sequence of mouse-leave events handled by
the BehaviorTracker, successive emitted exit_intent events are at least
30000 ms apart — once one fires, subsequent mouse-leave events with
clientY ≤ 0 emit nothing until the 30-second reset elapses — so at most
one exit_intent event is emitted within any 30-second window. -/
theorem c10_exit_intent_separated (evs : List MouseLeave)
    (hord : timeOrdered evs) :
    (runTracker initTracker evs).2.Pairwise (fun a b => a + 30000 ≤ b) :=
  runTracker_separated initTracker evs hord

/-- Witness for C10: four top-exit mouse leaves at 0, 1000, 29999 and
40000 ms emit exactly at 0 and 40000, which are 30000 ms apart. -/
theorem c10_exit_intent_separated_witness :
    timeOrdered [⟨-1, 0⟩, ⟨-1, 1000⟩, ⟨-1, 29999⟩, ⟨-1, 40000⟩] ∧
    (runTracker initTracker
        [⟨-1, 0⟩, ⟨-1, 1000⟩, ⟨-1, 29999⟩, ⟨-1, 40000⟩]).2.Pairwise
      (fun a b => a + 30000 ≤ b) ∧
    (runTracker initTracker
        [⟨-1, 0⟩, ⟨-1, 1000⟩, ⟨-1, 29999⟩, ⟨-1, 40000⟩]).2 = [0, 40000] :=
  ⟨by decide,
    c10_exit_intent_separated
      [⟨-1, 0⟩, ⟨-1, 1000⟩, ⟨-1, 29999⟩, ⟨-1, 40000⟩] (by decide),
    by rfl⟩
